import Mathlib

/-!
Verification of the btc_lotto_puzzles_bot repository: a shallow embedding of
the key sampler (src/keygen.rs), the checker (src/checker.rs), the puzzle
records (src/puzzles.rs), the configuration loader (src/main.rs) and the
scheduler with its session aggregator (src/scheduler.rs), together with
theorems settling the stated properties of each component.

Machine integers of the source (u32, u64, usize counters) are modelled as Nat:
no counter of the program can reach the wrap point of u64 within a process
lifetime, and the BigUint values are unbounded in the source already. The f64
reward and interval fields are modelled as Rat: the source only ever compares
them, and the values come from JSON literals, so no NaN or rounding behaviour
is reachable. Randomness is made explicit: every function that draws from the
thread RNG takes the raw draw as an argument. Wall-clock time is modelled in
discrete milliseconds where a claim needs it.
-/

namespace BtcLotto

/-- Address variant of a match (checker.rs, AddressType). -/
inductive AddressType
  | Compressed
  | Uncompressed
  deriving DecidableEq, Repr

/-- Result of checking one private key against a puzzle (checker.rs,
CheckResult). The private key is carried as its 64-character hex rendering,
as in the source. -/
structure CheckResult where
  puzzle_number : Nat
  private_key_hex : String
  compressed_address : String
  uncompressed_address : String
  target_address : String
  is_match : Bool
  match_type : Option AddressType
  deriving DecidableEq, Repr

/-- One hex digit, lowercase, as hex::encode writes it. -/
def hexDigit (n : Nat) : Char :=
  if n < 10 then Char.ofNat (48 + n) else Char.ofNat (87 + n)

/-- The hex digits of k, zero-padded to the given length, most significant
first. -/
def hexDigits : Nat → Nat → List Char
  | 0, _ => []
  | len + 1, k => hexDigits len (k / 16) ++ [hexDigit (k % 16)]

/-- hex::encode of the 32 secret bytes of a key: 64 lowercase hex characters,
big-endian, zero-padded. -/
def hex_encode_32 (k : Nat) : String :=
  String.mk (hexDigits 64 k)

/-- CheckResult::new from checker.rs: the compressed address is compared to
the target first, then the uncompressed one; the match flag and the variant
are both set from whichever comparison succeeds. -/
def CheckResult.new (puzzle_number : Nat) (private_key : Nat)
    (compressed_address : String) (uncompressed_address : String)
    (target_address : String) : CheckResult :=
  let private_key_hex := hex_encode_32 private_key
  let m : Bool × Option AddressType :=
    if compressed_address = target_address then (true, some AddressType.Compressed)
    else if uncompressed_address = target_address then (true, some AddressType.Uncompressed)
    else (false, none)
  { puzzle_number := puzzle_number, private_key_hex := private_key_hex,
    compressed_address := compressed_address, uncompressed_address := uncompressed_address,
    target_address := target_address, is_match := m.1, match_type := m.2 }

/-- Check statistics (checker.rs, CheckStats); the u64 counters are modelled
as Nat. -/
structure CheckStats where
  total_checked : Nat
  matches_found : Nat
  compressed_matches : Nat
  uncompressed_matches : Nat
  current_puzzle : Option Nat
  deriving DecidableEq, Repr

/-- CheckStats::new from checker.rs. -/
def CheckStats.new : CheckStats :=
  { total_checked := 0, matches_found := 0, compressed_matches := 0,
    uncompressed_matches := 0, current_puzzle := none }

/-- CheckStats::record_check from checker.rs: one more check counted, the
current puzzle remembered; a match bumps matches_found and the counter of its
variant. -/
def CheckStats.record_check (s : CheckStats) (result : CheckResult) : CheckStats :=
  let s := { s with total_checked := s.total_checked + 1,
                    current_puzzle := some result.puzzle_number }
  if result.is_match then
    let s := { s with matches_found := s.matches_found + 1 }
    match result.match_type with
    | some AddressType.Compressed =>
        { s with compressed_matches := s.compressed_matches + 1 }
    | some AddressType.Uncompressed =>
        { s with uncompressed_matches := s.uncompressed_matches + 1 }
    | none => s
  else s

/-- Order of the secp256k1 group; SecretKey::from_slice accepts exactly the
nonzero scalars below it. -/
def secp256k1_order : Nat :=
  115792089237316195423570985008687907852837564279074904382605163141518161494337

/-- RandBigInt::gen_biguint_below from num-bigint, the random draw made
explicit as the entropy argument r: a value below the bound, every such value
attainable; the function asserts a nonzero bound and panics on zero, modelled
as none. -/
def gen_biguint_below (bound : Nat) (r : Nat) : Option Nat :=
  if bound = 0 then none else some (r % bound)

/-- private_key_to_bytes from keygen.rs: the big-endian bytes of the key,
padded at the front to 32 bytes; a key of more than 32 bytes is an error. The
byte array is represented by its big-endian value, which the padding leaves
unchanged. -/
def private_key_to_bytes (key : Nat) : Option Nat :=
  if 2 ^ 256 ≤ key then none else some key

/-- SecretKey::from_slice of the secp256k1 crate: a 32-byte scalar is a valid
secret key exactly when it is nonzero and below the curve order. -/
def SecretKey.from_slice (k : Nat) : Option Nat :=
  if k = 0 then none
  else if secp256k1_order ≤ k then none
  else some k

/-- generate_random_key_in_range from keygen.rs, the RNG draw explicit as r:
range_size is range_end - range_start (BigUint subtraction, which panics on
underflow, modelled as none), a random offset is drawn strictly below
range_size, and range_start + offset is padded to 32 bytes and handed to
SecretKey::from_slice. -/
def generate_random_key_in_range (range_start : Nat) (range_end : Nat)
    (r : Nat) : Option Nat :=
  if range_end < range_start then none
  else do
    let offset ← gen_biguint_below (range_end - range_start) r
    let key_bytes ← private_key_to_bytes (range_start + offset)
    SecretKey.from_slice key_bytes

/-- A puzzle record (puzzles.rs, Puzzle): the hex range bounds stay strings
as in the source, the f64 reward is modelled as Rat. -/
structure Puzzle where
  puzzle : Nat
  bits : Nat
  range_start : String
  range_end : String
  address : String
  reward_btc : Rat
  deriving DecidableEq, Repr

/-- Scheduler configuration (scheduler.rs, SchedulerConfig); u64 and usize
fields as Nat, the f64 fields as Rat. -/
structure SchedulerConfig where
  run_duration_seconds : Nat
  check_interval_seconds : Nat
  threads : Nat
  min_bits : Option Nat
  max_bits : Option Nat
  min_reward_btc : Option Rat
  send_stats_updates : Bool
  stats_update_interval_hours : Rat
  deriving DecidableEq, Repr

/-- SchedulerConfig::default from scheduler.rs. -/
def SchedulerConfig.default : SchedulerConfig :=
  { run_duration_seconds := 600, check_interval_seconds := 60, threads := 8,
    min_bits := some 14, max_bits := none, min_reward_btc := some 0,
    send_stats_updates := true, stats_update_interval_hours := 24 }

/-- The filter body of get_eligible_puzzles (scheduler.rs lines 384 through
407): a puzzle is dropped when its bits fall below a supplied min_bits, above
a supplied max_bits, or its reward below a supplied min_reward_btc; an absent
bound constrains nothing. -/
def puzzle_passes_filter (config : SchedulerConfig) (puzzle : Puzzle) : Bool :=
  if config.min_bits.any fun min_bits => decide (puzzle.bits < min_bits) then false
  else if config.max_bits.any fun max_bits => decide (max_bits < puzzle.bits) then false
  else if config.min_reward_btc.any fun min_reward => decide (puzzle.reward_btc < min_reward) then false
  else true

/-- get_eligible_puzzles from scheduler.rs: the puzzles passing every supplied
bound, in their original order. -/
def get_eligible_puzzles (config : SchedulerConfig) (puzzles : List Puzzle) : List Puzzle :=
  puzzles.filter (puzzle_passes_filter config)

/-- The shared bot state (telegram_bot.rs, BotState), the fields the scheduler
reads or writes; start_time is wall-clock only and is omitted. -/
structure BotState where
  check_stats : CheckStats
  current_puzzle : Option Nat
  config : SchedulerConfig
  total_puzzles : Nat
  is_running : Bool
  deriving DecidableEq, Repr

/-- BotState::new from telegram_bot.rs: fresh statistics, no current puzzle,
not running. -/
def BotState.new (config : SchedulerConfig) (total_puzzles : Nat) : BotState :=
  { check_stats := CheckStats.new, current_puzzle := none, config := config,
    total_puzzles := total_puzzles, is_running := false }

/-- update_bot_state from telegram_bot.rs: copies the check statistics and the
current puzzle into the shared state; it never touches is_running. -/
def update_bot_state (state : BotState) (check_stats : CheckStats)
    (current_puzzle : Option Nat) : BotState :=
  { state with check_stats := check_stats, current_puzzle := current_puzzle }

/-- What a worker sends on the channel (scheduler.rs line 245): the check
result paired with the puzzle it was checked against. -/
abbrev Outcome := CheckResult × Puzzle

/-- State of the aggregation loop of run_solving_session (scheduler.rs lines
293 through 318): session counter, scheduler statistics, the matches recorded
for the side-effect loop, the solved flag, and the shared bot state as the
loop snapshots into it. -/
structure AggState where
  session_checks : Nat
  check_stats : CheckStats
  matches_list : List Outcome
  found_solution : Bool
  bot_state : Option BotState
  deriving DecidableEq, Repr

/-- One iteration of the aggregation loop: count the outcome, record it in the
statistics, push a bot-state snapshot every 100 checks, and on a match with
the solved flag still clear record the match for the side-effect loop and set
the flag (the source broadcasts the shutdown signal to the workers at that
same point). -/
def aggregate_outcome (s : AggState) (o : Outcome) : AggState :=
  let session_checks := s.session_checks + 1
  let check_stats := s.check_stats.record_check o.1
  let bot_state :=
    if session_checks % 100 = 0 then
      s.bot_state.map fun b => update_bot_state b check_stats (some o.1.puzzle_number)
    else s.bot_state
  if o.1.is_match && !s.found_solution then
    { session_checks := session_checks, check_stats := check_stats,
      matches_list := s.matches_list ++ [o], found_solution := true,
      bot_state := bot_state }
  else
    { session_checks := session_checks, check_stats := check_stats,
      matches_list := s.matches_list, found_solution := s.found_solution,
      bot_state := bot_state }

/-- The whole aggregation loop: drain every outcome of the channel in arrival
order. -/
def drain_outcomes (s : AggState) (outcomes : List Outcome) : AggState :=
  outcomes.foldl aggregate_outcome s

/-- The aggregation state run_solving_session starts its drain with: zero
session checks, the statistics the scheduler holds, no recorded match, the
solved flag clear, and the shared bot state as passed in. -/
def initial_agg_state (check_stats : CheckStats) (bot_state : Option BotState) : AggState :=
  { session_checks := 0, check_stats := check_stats, matches_list := [],
    found_solution := false, bot_state := bot_state }

/-- What a finished run_solving_session leaves behind: the scheduler
statistics, the shared bot state, how many worker tasks were spawned, and the
matches handed to the side-effect loop (notification, on-disk save,
auto-pause). -/
structure SessionResult where
  check_stats : CheckStats
  bot_state : Option BotState
  workers_spawned : Nat
  side_effect_matches : List Outcome
  deriving DecidableEq, Repr

/-- run_solving_session from scheduler.rs, the stream of outcomes the workers
deliver on the channel given explicitly in arrival order: an empty eligible
set returns Ok at once with nothing changed and no workers spawned; otherwise
the configured number of workers is spawned, the outcomes are drained, a
final bot-state snapshot is written, and each recorded match runs the
side-effect loop, whose last step clears is_running. The source function
returns Result of unit and no path of its body builds an Err. -/
def run_solving_session (config : SchedulerConfig) (puzzles : List Puzzle)
    (check_stats : CheckStats) (bot_state : Option BotState)
    (outcomes : List Outcome) : Except String SessionResult :=
  let eligible_puzzles := get_eligible_puzzles config puzzles
  if eligible_puzzles.isEmpty then
    Except.ok { check_stats := check_stats, bot_state := bot_state,
                workers_spawned := 0, side_effect_matches := [] }
  else
    let f := drain_outcomes (initial_agg_state check_stats bot_state) outcomes
    let final_bot := f.bot_state.map fun b =>
      update_bot_state b f.check_stats f.check_stats.current_puzzle
    let paused_bot := f.matches_list.foldl
      (fun b _ => b.map fun bb => { bb with is_running := false }) final_bot
    Except.ok { check_stats := f.check_stats, bot_state := paused_bot,
                workers_spawned := config.threads,
                side_effect_matches := f.matches_list }

/-- A launch tick of the scheduler loop (scheduler.rs run, lines 126 through
151): read is_running from the shared bot state (a scheduler without bot
state always runs) and, when it allows, run one solving session; a session
error is logged and reported to the notifier but changes nothing else. -/
def scheduler_launch_tick (config : SchedulerConfig) (puzzles : List Puzzle)
    (check_stats : CheckStats) (bot_state : Option BotState)
    (outcomes : List Outcome) : CheckStats × Option BotState :=
  let should_run := match bot_state with
    | some b => b.is_running
    | none => true
  if should_run then
    match run_solving_session config puzzles check_stats bot_state outcomes with
    | Except.ok res => (res.check_stats, res.bot_state)
    | Except.error _ => (check_stats, bot_state)
  else (check_stats, bot_state)

/-- A stats tick of the scheduler loop: send_stats_update only reads the
statistics for the notifier and mutates no state. -/
def scheduler_stats_tick (check_stats : CheckStats) (bot_state : Option BotState) :
    CheckStats × Option BotState :=
  (check_stats, bot_state)

/-- A step of the scheduler loop: one of its two racing timers fires; a launch
tick carries the outcome stream the session would drain. -/
inductive SchedulerStep
  | launch (outcomes : List Outcome)
  | stats
  deriving Repr

/-- Effect of one scheduler step on the state the loop owns. -/
def scheduler_step (config : SchedulerConfig) (puzzles : List Puzzle)
    (s : CheckStats × Option BotState) : SchedulerStep → CheckStats × Option BotState
  | SchedulerStep.launch outcomes => scheduler_launch_tick config puzzles s.1 s.2 outcomes
  | SchedulerStep.stats => scheduler_stats_tick s.1 s.2

/-- Any finite run of the scheduler loop after a given state. -/
def scheduler_run (config : SchedulerConfig) (puzzles : List Puzzle)
    (s : CheckStats × Option BotState) (steps : List SchedulerStep) :
    CheckStats × Option BotState :=
  steps.foldl (scheduler_step config puzzles) s

/-- bool parsing as Rust bool::from_str does it: exactly the two literal
words. -/
def parse_bool (s : String) : Option Bool :=
  if s = "true" then some true
  else if s = "false" then some false
  else none

/-- Unsigned integer parsing (u32, u64, usize): a nonempty string of decimal
digits. -/
def parse_nat (s : String) : Option Nat :=
  s.toNat?

/-- f64 parsing, modelled on the plain decimal fragment of the Rust float
grammar (digits with an optional decimal fraction); the value is kept exact
as a rational. -/
def parse_rat (s : String) : Option Rat :=
  match s.split (fun c => c = Char.ofNat 46) with
  | [w] => (parse_nat w).map fun n => (n : Rat)
  | [w, f] => do
      let n ← parse_nat w
      let d ← parse_nat f
      pure ((n : Rat) + (d : Rat) / ((10 : Rat) ^ f.length))
  | _ => none

/-- load_config_from_env from main.rs, the process environment given as a
lookup function: each of the five always-present fields falls back to its
hard-coded default when its variable is absent or fails to parse; the three
optional bounds take whatever the lookup and parse yield, with no fallback. -/
def load_config_from_env (env : String → Option String) : SchedulerConfig :=
  { run_duration_seconds := ((env ("RUN_DURATION_SECONDS")).bind parse_nat).getD 600,
    check_interval_seconds := ((env ("CHECK_INTERVAL_SECONDS")).bind parse_nat).getD 60,
    threads := ((env ("THREADS")).bind parse_nat).getD 8,
    min_bits := (env ("MIN_BITS")).bind parse_nat,
    max_bits := (env ("MAX_BITS")).bind parse_nat,
    min_reward_btc := (env ("MIN_REWARD_BTC")).bind parse_rat,
    send_stats_updates := ((env ("SEND_STATS_UPDATES")).bind parse_bool).getD true,
    stats_update_interval_hours := ((env ("STATS_UPDATE_INTERVAL_HOURS")).bind parse_rat).getD 24 }

/-- The fixed sleep the worker stop-wait issues every iteration,
Duration::from_millis(1) at scheduler.rs line 215. -/
def worker_poll_interval_ms : Nat := 1

/-- Sleep length the worker stop-wait chooses at a given elapsed time within a
session (scheduler.rs line 215): the fixed poll interval, independent of the
remaining deadline. -/
def worker_wait_sleep_ms (_elapsed : Nat) (_duration_ms : Nat) : Nat :=
  worker_poll_interval_ms

/-- The worker stop-wait of scheduler.rs lines 210 through 219, run to
completion with no cancellation, counting its timed waits: every iteration
sleeps the fixed poll interval and then compares the elapsed time against the
session duration; fuel bounds the recursion and is given generously by the
caller. -/
def worker_wait_loop : Nat → Nat → Nat → Nat
  | _, _, 0 => 0
  | elapsed, duration_ms, fuel + 1 =>
    if duration_ms ≤ elapsed + worker_poll_interval_ms then 1
    else 1 + worker_wait_loop (elapsed + worker_poll_interval_ms) duration_ms fuel

/-- How many times the worker stop-wait wakes before observing the deadline of
a session of the given length, when no cancellation ever fires. -/
def worker_wait_wakeups (duration_ms : Nat) : Nat :=
  worker_wait_loop 0 duration_ms (duration_ms + 1)

/-- Modelled from the spec: an event-driven stop-wait issues one timed wait
covering the whole remaining deadline, racing it against the cancellation
signal. The spec prescribes this shape for the worker wait; the sleep length
it would choose is the remaining time. -/
def event_driven_wait_sleep_ms (elapsed : Nat) (duration_ms : Nat) : Nat :=
  duration_ms - elapsed

/-- Modelled from the spec: with no cancellation, an event-driven stop-wait
wakes exactly once, at the deadline. -/
def event_driven_wait_wakeups (_duration_ms : Nat) : Nat := 1

/-- The concrete puzzle of the filtering scenario: bits also used as the
puzzle number, a unit range and a zero reward. -/
def scenario_puzzle (bits : Nat) : Puzzle :=
  { puzzle := bits, bits := bits, range_start := "0x1", range_end := "0x2",
    address := "A", reward_btc := 0 }

/-! Theorems. -/

/-- C1: the sampler of keygen.rs evaluated at the one-element range 0x1000 ..
0x1000 and at the two-element range 0x1000 .. 0x1001, for every RNG draw: the
one-element range produces no key at all (gen_biguint_below is handed the
zero bound range_end - range_start and panics), and the two-element range
always produces 0x1000 and never its upper end, because the offset is drawn
strictly below range_end - range_start. This contradicts the inclusive range
the claim, the comment inside the source function and the search-space size
end - start + 1 of the same file all state. -/
theorem C1_keygen_range_evaluation (r : Nat) :
    generate_random_key_in_range 4096 4096 r = none ∧
    generate_random_key_in_range 4096 4097 r = some 4096 := by
  constructor
  · rfl
  · simp [generate_random_key_in_range, gen_biguint_below, private_key_to_bytes,
      SecretKey.from_slice, secp256k1_order, Nat.mod_one]

/-- C10: CheckResult::new sets is_match exactly when one of the two derived
addresses equals the target, sets match_type exactly when is_match is set,
and gives the compressed comparison precedence, so a compressed hit always
yields the Compressed variant and an uncompressed-only hit the Uncompressed
one. -/
theorem C10_match_flag_and_variant (puzzle_number : Nat) (private_key : Nat)
    (ca : String) (ua : String) (ta : String) :
    ((CheckResult.new puzzle_number private_key ca ua ta).is_match = true ↔
      (ca = ta ∨ ua = ta)) ∧
    ((CheckResult.new puzzle_number private_key ca ua ta).match_type.isSome =
      (CheckResult.new puzzle_number private_key ca ua ta).is_match) ∧
    (ca = ta →
      (CheckResult.new puzzle_number private_key ca ua ta).match_type =
        some AddressType.Compressed) ∧
    (ca ≠ ta → ua = ta →
      (CheckResult.new puzzle_number private_key ca ua ta).match_type =
        some AddressType.Uncompressed) := by
  by_cases h1 : ca = ta <;> by_cases h2 : ua = ta <;>
    simp [CheckResult.new, h1, h2]

/-- The filter body accepts a puzzle exactly when it satisfies every supplied
bound. -/
lemma puzzle_passes_filter_iff (config : SchedulerConfig) (p : Puzzle) :
    puzzle_passes_filter config p = true ↔
      ((∀ mb, config.min_bits = some mb → mb ≤ p.bits) ∧
       (∀ mb, config.max_bits = some mb → p.bits ≤ mb) ∧
       (∀ mr, config.min_reward_btc = some mr → mr ≤ p.reward_btc)) := by
  rcases h1 : config.min_bits with _ | mb <;>
    rcases h2 : config.max_bits with _ | xb <;>
      rcases h3 : config.min_reward_btc with _ | mr <;>
        simp [puzzle_passes_filter, h1, h2, h3, not_lt]

/-- C3: the eligibility filter is a pure function of the puzzle list and the
bounds: with no bounds it returns the list unchanged; on the empty list it
returns the empty list; every puzzle it returns is a member of the input that
satisfies each supplied bound; and the three-puzzle scenario with bits 10, 15
and 100 filtered at min_bits 14 and max_bits 50 yields exactly the bits-15
puzzle. -/
theorem C3_eligibility_filter (config : SchedulerConfig) (puzzles : List Puzzle) :
    get_eligible_puzzles
      { config with min_bits := none, max_bits := none, min_reward_btc := none }
      puzzles = puzzles ∧
    get_eligible_puzzles config [] = [] ∧
    (∀ p ∈ get_eligible_puzzles config puzzles, p ∈ puzzles ∧
      (∀ mb, config.min_bits = some mb → mb ≤ p.bits) ∧
      (∀ mb, config.max_bits = some mb → p.bits ≤ mb) ∧
      (∀ mr, config.min_reward_btc = some mr → mr ≤ p.reward_btc)) ∧
    get_eligible_puzzles
      { SchedulerConfig.default with
          min_bits := some 14, max_bits := some 50, min_reward_btc := none }
      [scenario_puzzle 10, scenario_puzzle 15, scenario_puzzle 100] =
      [scenario_puzzle 15] := by
  refine ⟨?_, rfl, ?_, by decide⟩
  · refine List.filter_eq_self.mpr fun q _ => ?_
    simp [puzzle_passes_filter]
  · intro p hp
    rw [get_eligible_puzzles, List.mem_filter] at hp
    exact ⟨hp.1, (puzzle_passes_filter_iff config p).mp hp.2⟩

/-- C5: a launch tick that reads a cleared run flag starts no session and
leaves the scheduler statistics and the shared state exactly as they were. -/
theorem C5_paused_tick_noop (config : SchedulerConfig) (puzzles : List Puzzle)
    (check_stats : CheckStats) (bot : BotState) (outcomes : List Outcome)
    (h : bot.is_running = false) :
    scheduler_launch_tick config puzzles check_stats (some bot) outcomes =
      (check_stats, some bot) := by
  simp [scheduler_launch_tick, h]

/-- Witness for C5 at a concrete paused state. -/
theorem C5_paused_tick_witness :
    scheduler_launch_tick SchedulerConfig.default [scenario_puzzle 15]
      CheckStats.new (some (BotState.new SchedulerConfig.default 1)) [] =
      (CheckStats.new, some (BotState.new SchedulerConfig.default 1)) :=
  C5_paused_tick_noop SchedulerConfig.default [scenario_puzzle 15]
    CheckStats.new (BotState.new SchedulerConfig.default 1) [] rfl

/-- C6 counterexample: with every variable absent, the loader leaves min_bits
and min_reward_btc as none, while SchedulerConfig::default documents some 14
and some 0.0 for them, so a missing bound variable does not take the value
SchedulerConfig::default produces. -/
theorem C6_default_mismatch :
    (load_config_from_env fun _ => none).min_bits = none ∧
    SchedulerConfig.default.min_bits = some 14 ∧
    (load_config_from_env fun _ => none).min_bits ≠ SchedulerConfig.default.min_bits ∧
    (load_config_from_env fun _ => none).min_reward_btc = none ∧
    SchedulerConfig.default.min_reward_btc = some 0 ∧
    (load_config_from_env fun _ => none).min_reward_btc ≠
      SchedulerConfig.default.min_reward_btc := by
  refine ⟨rfl, rfl, by simp [load_config_from_env, SchedulerConfig.default], rfl, rfl,
    by simp [load_config_from_env, SchedulerConfig.default]⟩

/-- C6 amended: the loader is total, and when a variable is absent or fails
to parse the five always-present fields fall back to the hard-coded defaults
600, 60, 8, true and 24.0 (the SchedulerConfig::default values), while the
three optional bounds fall back to none, not to the some 14 and some 0.0 of
SchedulerConfig::default. -/
theorem C6_bound_defaults (env : String → Option String)
    (h1 : (env ("RUN_DURATION_SECONDS")).bind parse_nat = none)
    (h2 : (env ("CHECK_INTERVAL_SECONDS")).bind parse_nat = none)
    (h3 : (env ("THREADS")).bind parse_nat = none)
    (h4 : (env ("MIN_BITS")).bind parse_nat = none)
    (h5 : (env ("MAX_BITS")).bind parse_nat = none)
    (h6 : (env ("MIN_REWARD_BTC")).bind parse_rat = none)
    (h7 : (env ("SEND_STATS_UPDATES")).bind parse_bool = none)
    (h8 : (env ("STATS_UPDATE_INTERVAL_HOURS")).bind parse_rat = none) :
    load_config_from_env env =
      { run_duration_seconds := 600, check_interval_seconds := 60, threads := 8,
        min_bits := none, max_bits := none, min_reward_btc := none,
        send_stats_updates := true, stats_update_interval_hours := 24 } := by
  simp [load_config_from_env, h1, h2, h3, h4, h5, h6, h7, h8]

/-- Witness for C6 at the empty environment. -/
theorem C6_bound_defaults_witness :
    load_config_from_env (fun _ => none) =
      { run_duration_seconds := 600, check_interval_seconds := 60, threads := 8,
        min_bits := none, max_bits := none, min_reward_btc := none,
        send_stats_updates := true, stats_update_interval_hours := 24 } :=
  C6_bound_defaults (fun _ => none) rfl rfl rfl rfl rfl rfl rfl rfl

/-- C7: an empty eligible set makes run_solving_session return Ok at once,
with the statistics untouched, no workers spawned and nothing recorded for
side effects. -/
theorem C7_empty_eligible_ok (config : SchedulerConfig) (puzzles : List Puzzle)
    (check_stats : CheckStats) (bot_state : Option BotState)
    (outcomes : List Outcome)
    (h : get_eligible_puzzles config puzzles = []) :
    run_solving_session config puzzles check_stats bot_state outcomes =
      Except.ok { check_stats := check_stats, bot_state := bot_state,
                  workers_spawned := 0, side_effect_matches := [] } := by
  simp [run_solving_session, h]

/-- Witness for C7: the default configuration over no puzzles at all. -/
theorem C7_empty_eligible_witness :
    run_solving_session SchedulerConfig.default [] CheckStats.new none [] =
      Except.ok { check_stats := CheckStats.new, bot_state := none,
                  workers_spawned := 0, side_effect_matches := [] } :=
  C7_empty_eligible_ok SchedulerConfig.default [] CheckStats.new none [] rfl

/-- Closed form of the worker stop-wait when no cancellation fires: given
enough fuel it wakes once per millisecond until the deadline. -/
lemma worker_wait_loop_eq (fuel : Nat) : ∀ elapsed duration_ms : Nat,
    1 ≤ fuel → duration_ms ≤ elapsed + fuel →
    worker_wait_loop elapsed duration_ms fuel = max (duration_ms - elapsed) 1 := by
  induction fuel with
  | zero => intro e d h _; exact absurd h (by omega)
  | succ f ih =>
    intro e d _ hb
    rw [worker_wait_loop]
    by_cases hd : d ≤ e + worker_poll_interval_ms
    · rw [if_pos hd]
      unfold worker_poll_interval_ms at hd
      omega
    · rw [if_neg hd]
      unfold worker_poll_interval_ms at hd
      rw [ih (e + worker_poll_interval_ms) d (by omega) (by unfold worker_poll_interval_ms; omega)]
      unfold worker_poll_interval_ms
      omega

/-- C9 counterexample: at the first select point of a 10 ms session the
worker sleeps the fixed 1 ms poll interval where a wait racing the remaining
deadline would sleep the full 10 ms, and over the whole uncancelled session
the worker wakes 10 times where the event-driven wait of the claim wakes
once. -/
theorem C9_polling_counterexample :
    worker_wait_sleep_ms 0 10 = 1 ∧
    event_driven_wait_sleep_ms 0 10 = 10 ∧
    worker_wait_sleep_ms 0 10 ≠ event_driven_wait_sleep_ms 0 10 ∧
    worker_wait_wakeups 10 = 10 ∧
    event_driven_wait_wakeups 10 = 1 ∧
    worker_wait_wakeups 10 ≠ event_driven_wait_wakeups 10 := by
  decide

/-- C9 amended: the worker stop-wait races the cancellation signal against a
fixed 1 ms sleep and re-checks the deadline after every sleep: the sleep
length is always the constant poll interval, never the remaining deadline,
and an uncancelled session of d milliseconds wakes max d 1 times where the
event-driven wait the spec prescribes wakes once. -/
theorem C9_fixed_interval_polling (elapsed : Nat) (duration_ms : Nat) :
    worker_wait_sleep_ms elapsed duration_ms = worker_poll_interval_ms ∧
    worker_poll_interval_ms = 1 ∧
    worker_wait_wakeups duration_ms = max duration_ms 1 ∧
    event_driven_wait_wakeups duration_ms = 1 := by
  refine ⟨rfl, rfl, ?_, rfl⟩
  rw [worker_wait_wakeups,
    worker_wait_loop_eq (duration_ms + 1) 0 duration_ms (by omega) (by omega),
    Nat.sub_zero]

/-- record_check always counts exactly one more check. -/
lemma record_check_total (s : CheckStats) (r : CheckResult) :
    (s.record_check r).total_checked = s.total_checked + 1 := by
  cases h : r.is_match with
  | false => simp [CheckStats.record_check, h]
  | true =>
    cases ht : r.match_type with
    | none => simp [CheckStats.record_check, h, ht]
    | some t => cases t <;> simp [CheckStats.record_check, h, ht]

/-- record_check counts one more match exactly on a match. -/
lemma record_check_matches (s : CheckStats) (r : CheckResult) :
    (s.record_check r).matches_found =
      s.matches_found + (if r.is_match then 1 else 0) := by
  cases h : r.is_match with
  | false => simp [CheckStats.record_check, h]
  | true =>
    cases ht : r.match_type with
    | none => simp [CheckStats.record_check, h, ht]
    | some t => cases t <;> simp [CheckStats.record_check, h, ht]

/-- record_check counts one more compressed match exactly on a match of the
Compressed variant. -/
lemma record_check_compressed (s : CheckStats) (r : CheckResult) :
    (s.record_check r).compressed_matches =
      s.compressed_matches +
        (if r.is_match = true ∧ r.match_type = some AddressType.Compressed then 1 else 0) := by
  cases h : r.is_match with
  | false => simp [CheckStats.record_check, h]
  | true =>
    cases ht : r.match_type with
    | none => simp [CheckStats.record_check, h, ht]
    | some t => cases t <;> simp [CheckStats.record_check, h, ht]

/-- record_check counts one more uncompressed match exactly on a match of the
Uncompressed variant. -/
lemma record_check_uncompressed (s : CheckStats) (r : CheckResult) :
    (s.record_check r).uncompressed_matches =
      s.uncompressed_matches +
        (if r.is_match = true ∧ r.match_type = some AddressType.Uncompressed then 1 else 0) := by
  cases h : r.is_match with
  | false => simp [CheckStats.record_check, h]
  | true =>
    cases ht : r.match_type with
    | none => simp [CheckStats.record_check, h, ht]
    | some t => cases t <;> simp [CheckStats.record_check, h, ht]

/-- Field-by-field effect of one aggregation-loop iteration. -/
lemma aggregate_outcome_fields (s : AggState) (o : Outcome) :
    (aggregate_outcome s o).session_checks = s.session_checks + 1 ∧
    (aggregate_outcome s o).check_stats = s.check_stats.record_check o.1 ∧
    (aggregate_outcome s o).found_solution = (s.found_solution || o.1.is_match) ∧
    (aggregate_outcome s o).matches_list =
      (if s.found_solution then s.matches_list
       else if o.1.is_match then s.matches_list ++ [o] else s.matches_list) ∧
    (aggregate_outcome s o).bot_state.isSome = s.bot_state.isSome := by
  cases hf : s.found_solution <;> cases hm : o.1.is_match <;>
    simp [aggregate_outcome, hf, hm] <;>
      by_cases hc : (s.session_checks + 1) % 100 = 0 <;>
        cases hb : s.bot_state <;> simp [hc, hb]

/-- Closed form of the whole aggregation loop over an arbitrary starting
state: the session counter and total_checked advance by the stream length,
matches_found by the number of matches in the stream, the solved flag absorbs
any match, the recorded matches gain at most the first match of the stream,
and the presence of a shared bot state is preserved. -/
lemma drain_outcomes_spec (outcomes : List Outcome) : ∀ s : AggState,
    (drain_outcomes s outcomes).session_checks = s.session_checks + outcomes.length ∧
    (drain_outcomes s outcomes).check_stats.total_checked =
      s.check_stats.total_checked + outcomes.length ∧
    (drain_outcomes s outcomes).check_stats.matches_found =
      s.check_stats.matches_found + outcomes.countP (fun o => o.1.is_match) ∧
    (drain_outcomes s outcomes).found_solution =
      (s.found_solution || outcomes.any (fun o => o.1.is_match)) ∧
    (drain_outcomes s outcomes).matches_list =
      s.matches_list ++
        (if s.found_solution then []
         else (outcomes.filter fun o => o.1.is_match).take 1) ∧
    (drain_outcomes s outcomes).bot_state.isSome = s.bot_state.isSome := by
  induction outcomes with
  | nil => intro s; simp [drain_outcomes]
  | cons o os ih =>
    intro s
    obtain ⟨a1, a2, a3, a4, a5⟩ := aggregate_outcome_fields s o
    have hstep : drain_outcomes s (o :: os) = drain_outcomes (aggregate_outcome s o) os := rfl
    obtain ⟨i1, i2, i3, i4, i5, i6⟩ := ih (aggregate_outcome s o)
    rw [hstep]
    refine ⟨?_, ?_, ?_, ?_, ?_, ?_⟩
    · rw [i1, a1]; simp; omega
    · rw [i2, a2, record_check_total]; simp; omega
    · rw [i3, a2, record_check_matches, List.countP_cons]
      cases hm : o.1.is_match <;> (simp [hm]; try omega)
    · rw [i4, a3, List.any_cons]
      cases hm : o.1.is_match <;> cases hf : s.found_solution <;> simp [hm, hf]
    · rw [i5, a4, a3]
      cases hf : s.found_solution <;> cases hm : o.1.is_match <;>
        simp [hf, hm, List.filter_cons, List.take_succ_cons]
    · rw [i6, a5]

/-- C2: draining an outcome stream from a fresh session state records for the
side-effect loop exactly the first match of the stream in arrival order,
counts every outcome once into the session counter and total_checked, and
counts every match (the later ones included) into matches_found; and whenever
the eligible set is nonempty, run_solving_session hands exactly that
first-match list to its side-effect loop with those same final statistics, so
a stream of N outcomes holding exactly one match fires the side effects once,
for that match, ending with total_checked raised by N and matches_found by
one. -/
theorem C2_first_match_aggregation (check_stats : CheckStats)
    (bot_state : Option BotState) (outcomes : List Outcome) :
    (drain_outcomes (initial_agg_state check_stats bot_state) outcomes).matches_list =
      (outcomes.filter fun o => o.1.is_match).take 1 ∧
    (drain_outcomes (initial_agg_state check_stats bot_state) outcomes).session_checks =
      outcomes.length ∧
    (drain_outcomes (initial_agg_state check_stats bot_state) outcomes).check_stats.total_checked =
      check_stats.total_checked + outcomes.length ∧
    (drain_outcomes (initial_agg_state check_stats bot_state) outcomes).check_stats.matches_found =
      check_stats.matches_found + outcomes.countP (fun o => o.1.is_match) ∧
    (∀ config puzzles res, (get_eligible_puzzles config puzzles).isEmpty = false →
      run_solving_session config puzzles check_stats bot_state outcomes =
        Except.ok res →
      res.side_effect_matches = (outcomes.filter fun o => o.1.is_match).take 1 ∧
      res.check_stats.total_checked = check_stats.total_checked + outcomes.length ∧
      res.check_stats.matches_found =
        check_stats.matches_found + outcomes.countP (fun o => o.1.is_match)) := by
  obtain ⟨d1, d2, d3, d4, d5, d6⟩ :=
    drain_outcomes_spec outcomes (initial_agg_state check_stats bot_state)
  refine ⟨by simpa [initial_agg_state] using d5, by simpa [initial_agg_state] using d1,
    by simpa [initial_agg_state] using d2, by simpa [initial_agg_state] using d3, ?_⟩
  intro config puzzles res helig hrun
  simp only [run_solving_session, helig, Bool.false_eq_true, if_false] at hrun
  obtain rfl : _ = res := (Except.ok.injEq _ _).mp hrun
  exact ⟨by simpa [initial_agg_state] using d5, by simpa [initial_agg_state] using d2,
    by simpa [initial_agg_state] using d3⟩

/-- One record_check step keeps the variant-sum and the bound by
total_checked, for a result whose variant is present whenever it matches. -/
lemma record_check_invariant_step (s : CheckStats) (r : CheckResult)
    (hw : r.is_match = true → r.match_type.isSome = true)
    (h1 : s.matches_found = s.compressed_matches + s.uncompressed_matches)
    (h2 : s.matches_found ≤ s.total_checked) :
    (s.record_check r).matches_found =
      (s.record_check r).compressed_matches + (s.record_check r).uncompressed_matches ∧
    (s.record_check r).matches_found ≤ (s.record_check r).total_checked := by
  rw [record_check_total, record_check_matches, record_check_compressed,
    record_check_uncompressed]
  cases hm : r.is_match with
  | false => simp; omega
  | true =>
    cases ht : r.match_type with
    | none => exact absurd (hw hm) (by simp [ht])
    | some t => cases t <;> simp [ht] <;> omega

/-- The variant-sum and the bound by total_checked hold after folding
record_check over any list of results whose variants are present whenever
they match. -/
lemma foldl_record_check_invariant (results : List CheckResult) :
    ∀ s : CheckStats,
    (∀ x ∈ results, x.is_match = true → x.match_type.isSome = true) →
    s.matches_found = s.compressed_matches + s.uncompressed_matches →
    s.matches_found ≤ s.total_checked →
    (results.foldl CheckStats.record_check s).matches_found =
      (results.foldl CheckStats.record_check s).compressed_matches +
        (results.foldl CheckStats.record_check s).uncompressed_matches ∧
    (results.foldl CheckStats.record_check s).matches_found ≤
      (results.foldl CheckStats.record_check s).total_checked := by
  induction results with
  | nil => intro s _ h1 h2; exact ⟨h1, h2⟩
  | cons r rs ih =>
    intro s hwf h1 h2
    obtain ⟨g1, g2⟩ := record_check_invariant_step s r
      (hwf r (List.mem_cons_self r rs)) h1 h2
    exact ih (s.record_check r) (fun x hx => hwf x (List.mem_cons_of_mem r hx)) g1 g2

/-- C8: no counter of CheckStats decreases under record_check, and after any
sequence of record_check calls on well-formed results (a variant present
whenever the result matches, as CheckResult::new always produces) starting
from CheckStats::new, matches_found equals compressed_matches plus
uncompressed_matches and never exceeds total_checked. -/
theorem C8_stats_counters (s : CheckStats) (r : CheckResult)
    (results : List CheckResult)
    (hwf : ∀ x ∈ results, x.is_match = true → x.match_type.isSome = true) :
    (s.total_checked ≤ (s.record_check r).total_checked ∧
     s.matches_found ≤ (s.record_check r).matches_found ∧
     s.compressed_matches ≤ (s.record_check r).compressed_matches ∧
     s.uncompressed_matches ≤ (s.record_check r).uncompressed_matches) ∧
    ((results.foldl CheckStats.record_check CheckStats.new).matches_found =
      (results.foldl CheckStats.record_check CheckStats.new).compressed_matches +
        (results.foldl CheckStats.record_check CheckStats.new).uncompressed_matches ∧
     (results.foldl CheckStats.record_check CheckStats.new).matches_found ≤
      (results.foldl CheckStats.record_check CheckStats.new).total_checked) := by
  refine ⟨⟨?_, ?_, ?_, ?_⟩, foldl_record_check_invariant results CheckStats.new hwf rfl (by simp [CheckStats.new])⟩
  · rw [record_check_total]; omega
  · rw [record_check_matches]; omega
  · rw [record_check_compressed]; omega
  · rw [record_check_uncompressed]; omega

/-- Witness for C8 on a concrete miss followed by a short well-formed
history: one compressed hit and one miss. -/
theorem C8_stats_counters_witness :
    (CheckStats.new.total_checked ≤
      (CheckStats.new.record_check
        (CheckResult.new 1 1 ("a") ("b") ("c"))).total_checked ∧
     CheckStats.new.matches_found ≤
      (CheckStats.new.record_check
        (CheckResult.new 1 1 ("a") ("b") ("c"))).matches_found ∧
     CheckStats.new.compressed_matches ≤
      (CheckStats.new.record_check
        (CheckResult.new 1 1 ("a") ("b") ("c"))).compressed_matches ∧
     CheckStats.new.uncompressed_matches ≤
      (CheckStats.new.record_check
        (CheckResult.new 1 1 ("a") ("b") ("c"))).uncompressed_matches) ∧
    (([CheckResult.new 1 1 ("a") ("b") ("a"),
       CheckResult.new 2 2 ("a") ("b") ("c")].foldl
        CheckStats.record_check CheckStats.new).matches_found =
      ([CheckResult.new 1 1 ("a") ("b") ("a"),
        CheckResult.new 2 2 ("a") ("b") ("c")].foldl
        CheckStats.record_check CheckStats.new).compressed_matches +
        ([CheckResult.new 1 1 ("a") ("b") ("a"),
          CheckResult.new 2 2 ("a") ("b") ("c")].foldl
          CheckStats.record_check CheckStats.new).uncompressed_matches ∧
     ([CheckResult.new 1 1 ("a") ("b") ("a"),
       CheckResult.new 2 2 ("a") ("b") ("c")].foldl
        CheckStats.record_check CheckStats.new).matches_found ≤
      ([CheckResult.new 1 1 ("a") ("b") ("a"),
        CheckResult.new 2 2 ("a") ("b") ("c")].foldl
        CheckStats.record_check CheckStats.new).total_checked) :=
  C8_stats_counters CheckStats.new (CheckResult.new 1 1 ("a") ("b") ("c"))
    [CheckResult.new 1 1 ("a") ("b") ("a"), CheckResult.new 2 2 ("a") ("b") ("c")]
    (by decide)

/-- Folding the pause of the side-effect loop over a nonempty match list
clears is_running once and leaves it cleared. -/
lemma pause_foldl_nonempty (l : List Outcome) : ∀ ob : Option BotState, l ≠ [] →
    l.foldl (fun b _ => b.map fun bb => { bb with is_running := false }) ob =
      ob.map fun bb => { bb with is_running := false } := by
  induction l with
  | nil => intro ob h; exact absurd rfl h
  | cons o os ih =>
    intro ob _
    cases os with
    | nil => rfl
    | cons o2 os2 =>
      rw [List.foldl_cons, ih _ (by simp)]
      cases ob <;> rfl

/-- A scheduler step that sees a cleared run flag changes nothing. -/
lemma scheduler_step_paused (config : SchedulerConfig) (puzzles : List Puzzle)
    (cs : CheckStats) (b : BotState) (step : SchedulerStep)
    (h : b.is_running = false) :
    scheduler_step config puzzles (cs, some b) step = (cs, some b) := by
  cases step with
  | launch outcomes => simp [scheduler_step, scheduler_launch_tick, h]
  | stats => rfl

/-- Any run of the scheduler loop from a cleared run flag changes nothing. -/
lemma scheduler_run_paused (config : SchedulerConfig) (puzzles : List Puzzle)
    (steps : List SchedulerStep) : ∀ (cs : CheckStats) (b : BotState),
    b.is_running = false →
    scheduler_run config puzzles (cs, some b) steps = (cs, some b) := by
  induction steps with
  | nil => intro cs b _; rfl
  | cons st sts ih =>
    intro cs b h
    have hstep : scheduler_run config puzzles (cs, some b) (st :: sts) =
        scheduler_run config puzzles (scheduler_step config puzzles (cs, some b) st) sts := rfl
    rw [hstep, scheduler_step_paused config puzzles cs b st h]
    exact ih cs b h

/-- C4: a session run against a present bot state, a nonempty eligible set
and a stream holding a match returns Ok, leaves the shared run flag cleared,
and every later finite run of the scheduler loop leaves the whole scheduler
state, the cleared flag included, unchanged. -/
theorem C4_auto_pause (config : SchedulerConfig) (puzzles : List Puzzle)
    (check_stats : CheckStats) (bot : BotState) (outcomes : List Outcome)
    (steps : List SchedulerStep)
    (helig : (get_eligible_puzzles config puzzles).isEmpty = false)
    (hmatch : outcomes.any (fun o => o.1.is_match) = true) :
    ∃ res b2, run_solving_session config puzzles check_stats (some bot) outcomes =
        Except.ok res ∧
      res.bot_state = some b2 ∧ b2.is_running = false ∧
      scheduler_run config puzzles (res.check_stats, res.bot_state) steps =
        (res.check_stats, res.bot_state) := by
  obtain ⟨d1, d2, d3, d4, d5, d6⟩ :=
    drain_outcomes_spec outcomes (initial_agg_state check_stats (some bot))
  set f := drain_outcomes (initial_agg_state check_stats (some bot)) outcomes with hf
  have hml : f.matches_list = (outcomes.filter fun o => o.1.is_match).take 1 := by
    simpa [initial_agg_state] using d5
  have hne : f.matches_list ≠ [] := by
    rw [hml]
    obtain ⟨o, ho, hmo⟩ := List.any_eq_true.mp hmatch
    have : o ∈ outcomes.filter fun o => o.1.is_match := List.mem_filter.mpr ⟨ho, hmo⟩
    cases hfl : outcomes.filter fun o => o.1.is_match with
    | nil => rw [hfl] at this; exact absurd this (List.not_mem_nil o)
    | cons a l => simp
  have hsome : f.bot_state.isSome = true := by simpa [initial_agg_state] using d6
  obtain ⟨b0, hb0⟩ := Option.isSome_iff_exists.mp hsome
  have hrun : run_solving_session config puzzles check_stats (some bot) outcomes =
      Except.ok { check_stats := f.check_stats,
                  bot_state := f.matches_list.foldl
                    (fun b _ => b.map fun bb => { bb with is_running := false })
                    (f.bot_state.map fun b =>
                      update_bot_state b f.check_stats f.check_stats.current_puzzle),
                  workers_spawned := config.threads,
                  side_effect_matches := f.matches_list } := by
    simp only [run_solving_session, helig, Bool.false_eq_true, if_false]
  rw [pause_foldl_nonempty f.matches_list _ hne, hb0] at hrun
  refine ⟨_, _, hrun, rfl, rfl, ?_⟩
  exact scheduler_run_paused config puzzles steps _ _ rfl

/-- Witness for C4 at a concrete matching session: the default configuration,
one eligible 20-bit puzzle, a fresh bot state, a single matching outcome and
one later stats step. -/
theorem C4_auto_pause_witness :
    ∃ res b2, run_solving_session SchedulerConfig.default [scenario_puzzle 20]
        CheckStats.new (some (BotState.new SchedulerConfig.default 1))
        [(CheckResult.new 20 1 ("A") ("B") ("A"), scenario_puzzle 20)] =
        Except.ok res ∧
      res.bot_state = some b2 ∧ b2.is_running = false ∧
      scheduler_run SchedulerConfig.default [scenario_puzzle 20]
        (res.check_stats, res.bot_state) [SchedulerStep.stats] =
        (res.check_stats, res.bot_state) :=
  C4_auto_pause SchedulerConfig.default [scenario_puzzle 20] CheckStats.new
    (BotState.new SchedulerConfig.default 1)
    [(CheckResult.new 20 1 ("A") ("B") ("A"), scenario_puzzle 20)]
    [SchedulerStep.stats] (by decide) (by decide)

end BtcLotto

